import Mathlib

/-!
Shallow embedding of `frappe_client/frappe_client.py` (class `FrappeRequest`)
and `frappe_client/frappe_exceptions.py` from zerodha/py-frappe-client.

Modelling conventions:
* Python dicts of strings are association lists with distinct keys
  (`Dict`); `dict.update` keeps the receiver's key order and overwrites
  values, appending new keys at the end (`dictUpdate`).
* Python `None` is `Option.none`; Python truthiness of optional strings /
  dicts / ints is made explicit (`truthyStr`, `truthyDict`, and the
  pointwise checks in the code).
* HTTP traffic is a script: each network call pops the next `Resp` from a
  list (an exhausted script yields a default 599 response).  Every request
  the code issues is recorded in order in `St.reqs`, and every invocation
  of the login callback in `St.cbs`.
* A response body is `Option PageJson`: `none` models a body that is not
  valid JSON (`response.json()` raises `ValueError`); `some j` is the
  decoded JSON.  Documents in a listing are opaque and modelled as `Nat`.
* Python exceptions are the `Err` type (`GeneralException`,
  `MissingConfigException`, the unused `TokenException`, and the Python
  `TypeError` that `<` raises when one side is `None`).
* The `requests.Session` cookie jar auto-stores cookies from responses;
  that is library behaviour outside the code under test and is not
  modelled.  The jar field only reflects the explicit assignment performed
  by `set_session_token` in `__init__`.
* Generators are consumed eagerly: `get_paginated_doc` returns the list of
  yielded pages together with how the generator ended.  The Python `while`
  loop is given fuel; `PagStatus.fuelOut` marks runs where the fuel ran
  out (the Python loop would have kept iterating).
-/

namespace Frappe

abbrev Dict := List (String × String)

/-- Lookup in an association list, mirroring Python `d[k]` / `k in d`
(first match; our dicts have distinct keys). -/
def dictGet (d : Dict) (k : String) : Option String :=
  (d.find? (fun kv => kv.1 == k)).map (fun kv => kv.2)

/-- Python `d1.update(d2)` result: keys of `d1` keep their position but take
`d2`'s value when `d2` also binds them; keys only in `d2` are appended. -/
def dictUpdate (d1 d2 : Dict) : Dict :=
  d1.map (fun kv =>
    match dictGet d2 kv.1 with
    | some v => (kv.1, v)
    | none => kv)
  ++ d2.filter (fun kv => (dictGet d1 kv.1).isNone)

/-- Python truthiness of an optional string (`None` and `""` are falsy). -/
def truthyStr : Option String → Bool
  | none => false
  | some s => !s.isEmpty

/-- Python truthiness of an optional dict (`None` and `{}` are falsy). -/
def truthyDict : Option Dict → Bool
  | none => false
  | some d => !d.isEmpty

/-- Decoded JSON body of a response.  The only structure the client ever
inspects is the `"data"` key of a listing page (`response.get("data", [])`),
so a decoded body is that optional key; documents are opaque (`Nat`). -/
structure PageJson where
  data : Option (List Nat)
deriving Repr, DecidableEq

/-- Python `processed_response.get("data", [])`. -/
def PageJson.items (p : PageJson) : List Nat := p.data.getD []

/-- The literal `{"data": []}` the pagination loop yields on termination. -/
def emptyResponse : PageJson := { data := some [] }

/-- An HTTP response: status code, decoded JSON body (`none` when the body
is not valid JSON), and the response cookies. -/
structure Resp where
  status : Nat
  body : Option PageJson
  cookies : Dict
deriving Repr, DecidableEq

/-- Response used when the network script is exhausted. -/
def defaultResp : Resp := { status := 599, body := none, cookies := [] }

/-- Pop the next scripted response. -/
def popResp : List Resp → Resp × List Resp
  | [] => (defaultResp, [])
  | r :: rs => (r, rs)

/-- Python exceptions raised by the client:
`GeneralException`, `MissingConfigException`, `TokenException`
(declared in `frappe_exceptions.py`), and the interpreter-level
`TypeError` (e.g. `int < None`, `dict.update(None)`). -/
inductive Err where
  | general (msg : String)
  | missingConfig (msg : String)
  | token (msg : String)
  | typeError
deriving Repr, DecidableEq

/-- A request issued on the wire. -/
inductive Req where
  | login (url : String) (usr pwd : Option String) (headers : Option Dict)
  | httpGet (url : String) (params : Option Dict) (headers : Option Dict)
  | httpPost (url : String) (dataPayload : Option Dict) (jsonPayload : Option PageJson)
      (headers : Option Dict)
deriving Repr, DecidableEq

/-- The attributes a `FrappeRequest` instance carries.
`jar` is `frappe_session.cookies` as set by this code (`set_session_token`);
`authHeader` is the static `Authorization` header installed in API-key
mode. -/
structure Client where
  url : String
  usr : Option String
  pwd : Option String
  session_data : Option Dict
  callback : Bool
  headers : Option Dict
  jar : Dict
  authHeader : Option String
deriving Repr, DecidableEq

/-- Embeds `FrappeRequest.is_legacy_auth`:
`(self.usr and self.pwd) or self.session_data`. -/
def Client.is_legacy_auth (c : Client) : Bool :=
  (truthyStr c.usr && truthyStr c.pwd) || truthyDict c.session_data

/-- Execution state threaded through a call: the instance, the remaining
network script, the requests issued so far, and the cookie dicts handed to
the login callback so far. -/
structure St where
  client : Client
  net : List Resp
  reqs : List Req
  cbs : List Dict
deriving Repr, DecidableEq

/-- Issue one request: record it and consume the next scripted response. -/
def doRequest (q : Req) (s : St) : Resp × St :=
  let (r, net') := popResp s.net
  (r, { s with net := net', reqs := s.reqs ++ [q] })

/-- Embeds `FrappeRequest._process_response`: `response.json()` either
parses (`some`) or raises `ValueError`, which becomes
`GeneralException("Unable to process non JSON response")`. -/
def processResponse (r : Resp) : Except Err PageJson :=
  match r.body with
  | none => .error (.general "Unable to process non JSON response")
  | some j => .ok j

/-- Embeds `FrappeRequest._login`: POST `{cmd: login, usr, pwd}` to the base
url with `self.headers`; 403 raises `GeneralException("Invalid Session")`,
any other non-200 raises `GeneralException("An error with frappe response
occurred")`; on 200 the configured callback (if any) receives the response
cookie dict, and the raw response is returned.  Note `_login` assigns no
attribute of `self`. -/
def loginM (s : St) : Except Err Resp × St :=
  let c := s.client
  let (r, s1) := doRequest (.login c.url c.usr c.pwd c.headers) s
  if r.status == 403 then
    (.error (.general "Invalid Session"), s1)
  else if r.status != 200 then
    (.error (.general "An error with frappe response occurred"), s1)
  else
    let s2 := if c.callback then { s1 with cbs := s1.cbs ++ [r.cookies] } else s1
    (.ok r, s2)

/-- Embeds the per-call header handling that `get`, `post`,
`get_paginated_doc` and `get_doc` all repeat:
`if headers: headers.update(self.headers) else: headers = self.headers`.
A truthy caller dict is updated with the base dict (so base keys win);
`dict.update(None)` raises `TypeError` when no base headers were
configured. -/
def mergeCallHeaders (base caller : Option Dict) : Except Err (Option Dict) :=
  if truthyDict caller then
    match base with
    | some b => .ok (some (dictUpdate (caller.getD []) b))
    | none => .error .typeError
  else
    .ok base

/-- Embeds the repeated 403 block of `get` / `post` / `get_doc` /
`get_paginated_doc`: on a 403 under legacy auth, `_login()` once, and if
that login response is 200 reissue the identical request `q`; otherwise the
original response stands. -/
def handle403 (q : Req) (r1 : Resp) (s : St) : Except Err Resp × St :=
  if r1.status == 403 && s.client.is_legacy_auth then
    match loginM s with
    | (.error e, s2) => (.error e, s2)
    | (.ok lr, s2) =>
      if lr.status == 200 then
        let (r2, s3) := doRequest q s2
        (.ok r2, s3)
      else
        (.ok r1, s2)
  else
    (.ok r1, s)

/-- Embeds `FrappeRequest.__init__`.  Returns the constructed instance (or
the raised exception) together with the execution state (network calls made
during eager login, callback invocations). -/
def initClient (url : String) (username password : Option String)
    (session_data : Option Dict) (api_key api_secret : Option String)
    (callback : Bool) (headers : Option Dict) (net : List Resp) :
    Except Err Client × St :=
  let c0 : Client :=
    { url := url, usr := username, pwd := password, session_data := none,
      callback := callback, headers := headers, jar := [], authHeader := none }
  let s0 : St := { client := c0, net := net, reqs := [], cbs := [] }
  if truthyDict session_data then
    -- `if not all([self.usr, self.pwd]): raise MissingConfigException(...)`
    if !(truthyStr username && truthyStr password) then
      (.error (.missingConfig "Missing user, password for session based auth."), s0)
    else
      -- `self.session_data = session_data; self.set_session_token(session_data)`
      let d := session_data.getD []
      let c1 := { c0 with session_data := some d, jar := d }
      (.ok c1, { s0 with client := c1 })
  else if truthyStr username && truthyStr password then
    match loginM s0 with
    | (.error e, s1) => (.error e, s1)
    | (.ok r, s1) =>
      -- `self.session_data = self._get_cookie_data(login_response)`
      let c1 := { s1.client with session_data := some r.cookies }
      (.ok c1, { s1 with client := c1 })
  else if truthyStr api_key && truthyStr api_secret then
    let c1 := { c0 with
      authHeader := some ("token " ++ api_key.getD "" ++ ":" ++ api_secret.getD "") }
    (.ok c1, { s0 with client := c1 })
  else
    (.ok c0, s0)

/-- Embeds `FrappeRequest.get`. -/
def FrappeRequest.get (c : Client) (method : String) (params : Option Dict)
    (headers : Option Dict) (net : List Resp) : Except Err PageJson × St :=
  let s0 : St := { client := c, net := net, reqs := [], cbs := [] }
  match mergeCallHeaders c.headers headers with
  | .error e => (.error e, s0)
  | .ok H =>
    let q := Req.httpGet (c.url ++ "/api/method/" ++ method ++ "/") params H
    let (r1, s1) := doRequest q s0
    match handle403 q r1 s1 with
    | (.error e, s2) => (.error e, s2)
    | (.ok rf, s2) => (processResponse rf, s2)

/-- Embeds `FrappeRequest.post`. -/
def FrappeRequest.post (c : Client) (method : String) (dataPayload : Option Dict)
    (jsonPayload : Option PageJson) (headers : Option Dict) (net : List Resp) :
    Except Err PageJson × St :=
  let s0 : St := { client := c, net := net, reqs := [], cbs := [] }
  match mergeCallHeaders c.headers headers with
  | .error e => (.error e, s0)
  | .ok H =>
    let q := Req.httpPost (c.url ++ "/api/method/" ++ method ++ "/") dataPayload jsonPayload H
    let (r1, s1) := doRequest q s0
    match handle403 q r1 s1 with
    | (.error e, s2) => (.error e, s2)
    | (.ok rf, s2) => (processResponse rf, s2)

/-- Python `<` between an int and an optional int: `n < None` raises
`TypeError` in Python 3. -/
def pyLt (n : Nat) : Option Nat → Except Err Bool
  | some m => .ok (decide (n < m))
  | none => .error .typeError

/-- Python `str` of an optional int (`str(None) = "None"`). -/
def optNatStr : Option Nat → String
  | none => "None"
  | some n => toString n

/-- The query-parameter dict `get_paginated_doc` builds (and rebuilds with
the advanced offset): `limit_start`, `limit_page_length`, then the optional
serialized `filters` / `fields` / `order_by`.  `filters` and `fields` are
modelled as their already-serialized `json.dumps` strings (present iff the
caller passed a truthy value); `order_by` is passed through. -/
def pagParams (start : Nat) (p : Option Nat)
    (filters fields order_by : Option String) : Dict :=
  [("limit_start", toString start), ("limit_page_length", optNatStr p)]
  ++ (match filters with | some f => [("filters", f)] | none => [])
  ++ (match fields with | some f => [("fields", f)] | none => [])
  ++ (match order_by with | some o => [("order_by", o)] | none => [])

/-- How a consumed pagination generator ended. -/
inductive PagStatus where
  /-- the generator returned normally -/
  | done
  /-- a Python exception escaped from the generator -/
  | raised (e : Err)
  /-- model fuel exhausted: the Python loop would keep iterating -/
  | fuelOut
deriving Repr, DecidableEq

/-- Result of fully consuming a `get_paginated_doc` generator: the pages it
yielded, in order, how it ended, and the final execution state. -/
structure PagOut where
  pages : List PageJson
  status : PagStatus
  st : St
deriving Repr, DecidableEq

/-- Embeds the `while has:` loop of `FrappeRequest.get_paginated_doc`, one
fuel unit per iteration.  Each iteration: GET the endpoint with the current
params; a 404 yields `{"data": []}` and returns; otherwise the shared 403
block runs, the (possibly reissued) response is decoded, and the three
checks on `len(response.get("data", []))` follow — `== 0` yields the empty
page and returns, `< limit_page_length` yields the page and returns, and
otherwise the page is yielded after `start += limit_page_length` updates
the params for the next round (the code stores the new `limit_start` as an
int; only its rendered value matters here). -/
def pagLoop (endpoint : String) (H : Option Dict) (p : Option Nat)
    (filters fields order_by : Option String) (start : Nat) (s : St) :
    Nat → PagOut
  | 0 => { pages := [], status := .fuelOut, st := s }
  | fuel + 1 =>
    let q := Req.httpGet endpoint (some (pagParams start p filters fields order_by)) H
    let (r, s1) := doRequest q s
    if r.status == 404 then
      { pages := [emptyResponse], status := .done, st := s1 }
    else
      match handle403 q r s1 with
      | (.error e, s2) => { pages := [], status := .raised e, st := s2 }
      | (.ok rf, s2) =>
        match processResponse rf with
        | .error e => { pages := [], status := .raised e, st := s2 }
        | .ok page =>
          if page.items.length == 0 then
            { pages := [emptyResponse], status := .done, st := s2 }
          else
            match pyLt page.items.length p with
            | .error e => { pages := [], status := .raised e, st := s2 }
            | .ok true => { pages := [page], status := .done, st := s2 }
            | .ok false =>
              let rest := pagLoop endpoint H p filters fields order_by
                (start + p.getD 0) s2 fuel
              { rest with pages := page :: rest.pages }

/-- Embeds `FrappeRequest.get_paginated_doc` (the generator, consumed to
exhaustion with the given fuel).  `start` is
`limit_start if limit_start else 0` (so `None` and `0` both give 0), and
`limit_page_length` is replaced by 100 only when it equals the int `0`
(`None == 0` is false in Python, so `None` passes through). -/
def FrappeRequest.get_paginated_doc (c : Client) (doctype : String)
    (filters fields : Option String) (limit_page_length limit_start : Option Nat)
    (order_by : Option String) (headers : Option Dict) (net : List Resp)
    (fuel : Nat) : PagOut :=
  let s0 : St := { client := c, net := net, reqs := [], cbs := [] }
  match mergeCallHeaders c.headers headers with
  | .error e => { pages := [], status := .raised e, st := s0 }
  | .ok H =>
    let start := limit_start.getD 0
    let p : Option Nat := if limit_page_length == some 0 then some 100 else limit_page_length
    let endpoint := c.url ++ "/api/resource/" ++ doctype ++ "/"
    pagLoop endpoint H p filters fields order_by start s0 fuel

instance {ε α : Type} [DecidableEq ε] [DecidableEq α] : DecidableEq (Except ε α) := fun
  | .ok a, .ok b =>
    if h : a = b then .isTrue (by rw [h])
    else .isFalse (by intro he; cases he; exact h rfl)
  | .ok _, .error _ => .isFalse (by intro h; cases h)
  | .error _, .ok _ => .isFalse (by intro h; cases h)
  | .error e, .error f =>
    if h : e = f then .isTrue (by rw [h])
    else .isFalse (by intro he; cases he; exact h rfl)

/-- Result of `FrappeRequest.get_doc`: either the decoded single fetch, or
the pagination generator (consumed). -/
inductive DocOut where
  | single (result : Except Err PageJson) (st : St)
  | paged (out : PagOut)
deriving Repr, DecidableEq

/-- Embeds `FrappeRequest.get_doc`.  A non-empty `name` forces
`pagination = False`; with pagination on, the call is delegated to
`get_paginated_doc` (passing `limit_page_length` through unchanged, `None`
included); otherwise one GET of `/api/resource/{doctype}/{name}` is issued
with only the truthy optional params included (`limit_start=0` and
`limit_page_length=0` are falsy and dropped), under the shared 403 block. -/
def FrappeRequest.get_doc (c : Client) (doctype : String) (name : String)
    (filters fields : Option String) (limit_page_length limit_start : Option Nat)
    (order_by : Option String) (headers : Option Dict) (pagination : Bool)
    (net : List Resp) (fuel : Nat) : DocOut :=
  let pagination := if name != "" && pagination then false else pagination
  if pagination then
    .paged (FrappeRequest.get_paginated_doc c doctype filters fields
      limit_page_length limit_start order_by headers net fuel)
  else
    let s0 : St := { client := c, net := net, reqs := [], cbs := [] }
    match mergeCallHeaders c.headers headers with
    | .error e => .single (.error e) s0
    | .ok H =>
      let params : Dict :=
        (match filters with | some f => [("filters", f)] | none => [])
        ++ (match fields with | some f => [("fields", f)] | none => [])
        ++ (match limit_start with
            | some n => if n != 0 then [("limit_start", toString n)] else []
            | none => [])
        ++ (match limit_page_length with
            | some n => if n != 0 then [("limit_page_length", toString n)] else []
            | none => [])
        ++ (match order_by with | some o => [("order_by", o)] | none => [])
      let q := Req.httpGet (c.url ++ "/api/resource/" ++ doctype ++ "/" ++ name)
        (some params) H
      let (r1, s1) := doRequest q s0
      match handle403 q r1 s1 with
      | (.error e, s2) => .single (.error e) s2
      | (.ok rf, s2) => .single (processResponse rf) s2

/-- Well-behaved listing server over a fixed finite collection `L`: the
response to a query at offset `s` with page length `p` is a 200 whose
`data` is the slice `L[s : s+p]`. -/
def serverPage (L : List Nat) (s p : Nat) : Resp :=
  { status := 200, body := some { data := some ((L.drop s).take p) }, cookies := [] }

/-- The network script such a server produces for `k` consecutive listing
requests starting at offset `s` and advancing by `p`. -/
def serverNet (L : List Nat) (p : Nat) (s : Nat) : Nat → List Resp
  | 0 => []
  | k + 1 => serverPage L s p :: serverNet L p (s + p) k

/-! Concrete fixtures used in examples, witnesses and counterexamples. -/

/-- A client constructed with no credentials at all. -/
def plainClient : Client :=
  { url := "http://x", usr := none, pwd := none, session_data := none,
    callback := false, headers := none, jar := [], authHeader := none }

/-- A cookie-auth (legacy) client with username and password. -/
def legacyClient : Client :=
  { plainClient with usr := some "u", pwd := some "p" }

/-- Whether a call outcome is a raised `TokenException`. -/
def errIsToken : Except Err Resp → Bool
  | .error (.token _) => true
  | _ => false

/-- Whether construction returned an instance (no exception). -/
def isOkClient : Except Err Client → Bool
  | .ok _ => true
  | _ => false

/-! Small lemmas about the state threading. -/

theorem doRequest_client (q : Req) (s : St) : (doRequest q s).2.client = s.client := by
  simp [doRequest]

theorem loginM_client (s : St) : (loginM s).2.client = s.client := by
  unfold loginM doRequest
  split
  dsimp only
  split
  · rfl
  · split
    · rfl
    · split <;> rfl

theorem handle403_client (q : Req) (r1 : Resp) (s : St) :
    (handle403 q r1 s).2.client = s.client := by
  unfold handle403
  split
  · rcases h : loginM s with ⟨res, s2⟩
    have hc : s2.client = s.client := by
      have := loginM_client s; rw [h] at this; exact this
    cases res <;> simp [h, doRequest, hc]
    split <;> simp [hc]
  · rfl

/-! ### C10 -/

/-- C10: constructing a client with no session data, no username/password
and no API key/secret succeeds without raising, issues no network request,
attaches no authentication material (empty cookie jar, no Authorization
header), and the resulting instance has `is_legacy_auth = false`. -/
theorem c10_no_credentials_construction (url : String) (net : List Resp) :
    (initClient url none none none none none false none net).1 =
      .ok { url := url, usr := none, pwd := none, session_data := none,
            callback := false, headers := none, jar := [], authHeader := none } ∧
    (initClient url none none none none none false none net).2.reqs = [] ∧
    Client.is_legacy_auth
      { url := url, usr := none, pwd := none, session_data := none,
        callback := false, headers := none, jar := [], authHeader := none } = false := by
  refine ⟨rfl, rfl, rfl⟩

/-! ### C7 -/

/-- C7 counterexample: supplying session data as an explicitly given empty
mapping, with no username/password, does **not** fail construction — the
truthiness test `if session_data:` skips the credential check for an empty
dict, and construction succeeds with no network call (and no session
state). -/
theorem c7_counterexample :
    isOkClient (initClient "http://x" none none (some []) none none false none []).1 = true ∧
    (initClient "http://x" none none (some []) none none false none []).2.reqs = [] ∧
    (initClient "http://x" none none (some []) none none false none []).1 =
      .ok plainClient := by
  refine ⟨rfl, rfl, rfl⟩

/-- C7 (amended): for every construction in which a **nonempty** session
data mapping is supplied while the username/password pair is not fully
present (missing or empty), construction fails with
`MissingConfigException` ("Missing user, password for session based
auth.") before any network call is made. -/
theorem c7_missing_credentials_amended (url : String) (usr pwd : Option String)
    (sd : Dict) (apiKey apiSecret : Option String) (cb : Bool)
    (hdrs : Option Dict) (net : List Resp)
    (hsd : sd ≠ []) (hcred : (truthyStr usr && truthyStr pwd) = false) :
    initClient url usr pwd (some sd) apiKey apiSecret cb hdrs net =
      (.error (.missingConfig "Missing user, password for session based auth."),
       { client := { url := url, usr := usr, pwd := pwd, session_data := none,
                     callback := cb, headers := hdrs, jar := [], authHeader := none },
         net := net, reqs := [], cbs := [] }) := by
  have hd : truthyDict (some sd) = true := by
    simp [truthyDict, List.isEmpty_iff, hsd]
  simp [initClient, hd, hcred]

/-- Witness for C7: a concrete nonempty session dict with no credentials is
rejected before any I/O. -/
theorem c7_missing_credentials_amended_witness :
    initClient "http://x" none none (some [("sid", "s")]) none none false none [] =
      (.error (.missingConfig "Missing user, password for session based auth."),
       { client := { url := "http://x", usr := none, pwd := none, session_data := none,
                     callback := false, headers := none, jar := [], authHeader := none },
         net := [], reqs := [], cbs := [] }) :=
  c7_missing_credentials_amended "http://x" none none [("sid", "s")] none none false none []
    (by simp) rfl

/-! ### C3 -/

/-- C3 counterexample: when the login endpoint answers 403, the raised
exception is `GeneralException("Invalid Session")`, not a
`TokenException` — the `AuthError` class of the spec is declared in
`frappe_exceptions.py` but never raised by `_login`. -/
theorem c3_counterexample :
    (loginM { client := legacyClient,
              net := [{ status := 403, body := none, cookies := [] }],
              reqs := [], cbs := [] }).1 =
      .error (.general "Invalid Session") ∧
    errIsToken (loginM { client := legacyClient,
                         net := [{ status := 403, body := none, cookies := [] }],
                         reqs := [], cbs := [] }).1 = false := by
  refine ⟨rfl, rfl⟩

/-- C3 (amended): every login call (eager login at construction or
re-login on 403) that receives status 403 fails with
`GeneralException("Invalid Session")`, and one that receives any other
non-200 status fails with `GeneralException("An error with frappe response
occurred")` — both failures are `GeneralError`; no `AuthError`
(`TokenException`) is ever raised. -/
theorem c3_login_errors_amended :
    (∀ s : St, (popResp s.net).1.status = 403 →
      (loginM s).1 = .error (.general "Invalid Session")) ∧
    (∀ s : St, (popResp s.net).1.status ≠ 403 → (popResp s.net).1.status ≠ 200 →
      (loginM s).1 = .error (.general "An error with frappe response occurred")) := by
  constructor
  · intro s h
    simp [loginM, doRequest, h]
  · intro s h403 h200
    simp [loginM, doRequest, h403, h200]

/-- Witness for C3: a 403 login response raises the "Invalid Session"
general error, a 500 login response raises the generic frappe error. -/
theorem c3_login_errors_amended_witness :
    (loginM { client := legacyClient,
              net := [{ status := 403, body := none, cookies := [] }],
              reqs := [], cbs := [] }).1 =
      .error (.general "Invalid Session") ∧
    (loginM { client := legacyClient,
              net := [{ status := 500, body := none, cookies := [] }],
              reqs := [], cbs := [] }).1 =
      .error (.general "An error with frappe response occurred") :=
  ⟨c3_login_errors_amended.1 _ rfl, c3_login_errors_amended.2 _ (by decide) (by decide)⟩

/-! Association-list lemmas about `dictUpdate` (Python `d1.update(d2)`). -/

theorem fst_updEntry (d2 : Dict) (kv : String × String) :
    (match dictGet d2 kv.1 with | some v => (kv.1, v) | none => kv).1 = kv.1 := by
  cases dictGet d2 kv.1 <;> rfl

theorem find?_filter_notin (d1 d2 : Dict) (k : String) (h : dictGet d1 k = none) :
    (d2.filter (fun kv => (dictGet d1 kv.1).isNone)).find? (fun kv => kv.1 == k)
      = d2.find? (fun kv => kv.1 == k) := by
  induction d2 with
  | nil => rfl
  | cons kv tl ih =>
    by_cases hk : kv.1 = k
    · have hg : (dictGet d1 kv.1).isNone = true := by rw [hk, h]; rfl
      have hbeq : (kv.1 == k) = true := by simp [hk]
      simp [List.filter_cons, hg, List.find?_cons, hbeq]
    · have hbeq : (kv.1 == k) = false := by simp [hk]
      cases hg : (dictGet d1 kv.1).isNone with
      | true => simp [List.filter_cons, hg, List.find?_cons, hbeq, ih]
      | false => simp [List.filter_cons, hg, hbeq, ih]

theorem find?_map_upd (d1 d2 : Dict) (k : String) :
    (d1.map (fun kv =>
        match dictGet d2 kv.1 with | some v => (kv.1, v) | none => kv)).find?
      (fun kv => kv.1 == k)
    = (d1.find? (fun kv => kv.1 == k)).map (fun kv =>
        match dictGet d2 kv.1 with | some v => (kv.1, v) | none => kv) := by
  induction d1 with
  | nil => rfl
  | cons kv tl ih =>
    simp only [List.map_cons, List.find?_cons]
    rw [fst_updEntry d2 kv]
    cases hbeq : (kv.1 == k) with
    | true => rfl
    | false => simpa using ih

theorem dictGet_dictUpdate (d1 d2 : Dict) (k : String) :
    dictGet (dictUpdate d1 d2) k =
      match dictGet d2 k with
      | some v => some v
      | none => dictGet d1 k := by
  have h0 : dictGet (dictUpdate d1 d2) k =
      (((d1.map (fun kv =>
          match dictGet d2 kv.1 with | some v => (kv.1, v) | none => kv)).find?
          (fun kv => kv.1 == k)).or
        ((d2.filter (fun kv => (dictGet d1 kv.1).isNone)).find?
          (fun kv => kv.1 == k))).map (fun kv => kv.2) := by
    show ((dictUpdate d1 d2).find? (fun kv => kv.1 == k)).map (fun kv => kv.2) = _
    rw [dictUpdate, List.find?_append]
  rw [h0, find?_map_upd]
  cases hd1 : d1.find? (fun kv => kv.1 == k) with
  | some kv0 =>
    have hb := List.find?_some hd1
    have hk0 : kv0.1 = k := eq_of_beq (by simpa using hb)
    have hget1 : dictGet d1 k = some kv0.2 := by
      show (d1.find? (fun kv => kv.1 == k)).map (fun kv => kv.2) = _
      rw [hd1]; rfl
    cases hd2 : dictGet d2 k with
    | some v =>
      dsimp only [Option.map, Option.or]
      rw [hk0, hd2]
    | none =>
      dsimp only [Option.map, Option.or]
      rw [hk0, hd2, hget1]
  | none =>
    have hget1 : dictGet d1 k = none := by
      show (d1.find? (fun kv => kv.1 == k)).map (fun kv => kv.2) = none
      rw [hd1]; rfl
    dsimp only [Option.map, Option.or]
    rw [find?_filter_notin d1 d2 k hget1]
    cases hfind : d2.find? (fun kv => kv.1 == k) with
    | some kv2 =>
      have hd2 : dictGet d2 k = some kv2.2 := by
        show (d2.find? (fun kv => kv.1 == k)).map (fun kv => kv.2) = _
        rw [hfind]; rfl
      rw [hd2]
    | none =>
      have hd2 : dictGet d2 k = none := by
        show (d2.find? (fun kv => kv.1 == k)).map (fun kv => kv.2) = _
        rw [hfind]; rfl
      rw [hd2, hget1]

/-! ### C2 -/

/-- C2 counterexample: with base headers `{X-T: base}` configured on the
client and a caller-supplied `{X-T: caller}`, the request goes out with
`X-T = base` — `headers.update(self.headers)` lets the **base** value win,
not the caller's as the claim states. -/
theorem c2_counterexample :
    (FrappeRequest.get { plainClient with headers := some [("X-T", "base")] }
        "m" none (some [("X-T", "caller")])
        [{ status := 200, body := some { data := none }, cookies := [] }]).2.reqs =
      [Req.httpGet "http://x/api/method/m/" none (some [("X-T", "base")])] ∧
    dictGet [("X-T", "base")] "X-T" = some "base" ∧
    (some "base" : Option String) ≠ some "caller" := by
  refine ⟨rfl, rfl, by decide⟩

theorem mergeCallHeaders_some (b callerH : Dict) (h : callerH ≠ []) :
    mergeCallHeaders (some b) (some callerH) = .ok (some (dictUpdate callerH b)) := by
  simp [mergeCallHeaders, truthyDict, List.isEmpty_iff, h]

/-- Headers of a request as sent on the wire. -/
def reqHeaders : Req → Option Dict
  | .login _ _ _ h => h
  | .httpGet _ _ h => h
  | .httpPost _ _ _ h => h

/-- Execution state of a `get_doc` outcome. -/
def DocOut.st : DocOut → St
  | .single _ s => s
  | .paged o => o.st

/-- C2 (amended): with base headers configured and a truthy caller-supplied
headers mapping, every call of `get`, `post`, `get_doc` and
`get_paginated_doc` sends `dictUpdate callerH base` on the wire — the
caller's dict updated with the base dict — so for every key present in
both, the **base** configured value wins (the claim's direction is
reversed); keys present only in the caller's mapping keep the caller's
value. -/
theorem c2_headers_merge_amended :
    (∀ (d1 d2 : Dict) (k : String) (v : String), dictGet d2 k = some v →
      dictGet (dictUpdate d1 d2) k = some v) ∧
    (∀ (d1 d2 : Dict) (k : String), dictGet d2 k = none →
      dictGet (dictUpdate d1 d2) k = dictGet d1 k) ∧
    (∀ (c : Client) (b callerH : Dict) (method : String) (params : Option Dict)
       (r : Resp) (rest : List Resp),
      c.headers = some b → callerH ≠ [] → r.status ≠ 403 →
      (FrappeRequest.get c method params (some callerH) (r :: rest)).2.reqs =
        [Req.httpGet (c.url ++ "/api/method/" ++ method ++ "/") params
          (some (dictUpdate callerH b))]) ∧
    (∀ (c : Client) (b callerH : Dict) (method : String) (dataPayload : Option Dict)
       (jsonPayload : Option PageJson) (r : Resp) (rest : List Resp),
      c.headers = some b → callerH ≠ [] → r.status ≠ 403 →
      (FrappeRequest.post c method dataPayload jsonPayload (some callerH) (r :: rest)).2.reqs =
        [Req.httpPost (c.url ++ "/api/method/" ++ method ++ "/") dataPayload jsonPayload
          (some (dictUpdate callerH b))]) ∧
    (∀ (c : Client) (b callerH : Dict) (doctype name : String) (r : Resp) (rest : List Resp)
       (fuel : Nat),
      c.headers = some b → callerH ≠ [] → r.status ≠ 403 →
      ((FrappeRequest.get_doc c doctype name none none none none none
          (some callerH) false (r :: rest) fuel).st.reqs.map reqHeaders) =
        [some (dictUpdate callerH b)]) ∧
    (∀ (c : Client) (b callerH : Dict) (doctype : String) (r : Resp) (rest : List Resp),
      c.headers = some b → callerH ≠ [] → r.status = 404 →
      ((FrappeRequest.get_paginated_doc c doctype none none (some 100) none none
          (some callerH) (r :: rest) 1).st.reqs.map reqHeaders) =
        [some (dictUpdate callerH b)]) := by
  refine ⟨?_, ?_, ?_, ?_, ?_, ?_⟩
  · intro d1 d2 k v h
    rw [dictGet_dictUpdate, h]
  · intro d1 d2 k h
    rw [dictGet_dictUpdate, h]
  · intro c b callerH method params r rest hb hc h403
    simp [FrappeRequest.get, hb, mergeCallHeaders_some _ _ hc, doRequest, popResp,
      handle403, h403]
  · intro c b callerH method dataPayload jsonPayload r rest hb hc h403
    simp [FrappeRequest.post, hb, mergeCallHeaders_some _ _ hc, doRequest, popResp,
      handle403, h403]
  · intro c b callerH doctype name r rest fuel hb hc h403
    simp [FrappeRequest.get_doc, DocOut.st, hb, mergeCallHeaders_some _ _ hc,
      doRequest, popResp, handle403, h403, reqHeaders]
  · intro c b callerH doctype r rest hb hc h404
    simp [FrappeRequest.get_paginated_doc, DocOut.st, hb, mergeCallHeaders_some _ _ hc,
      pagLoop, doRequest, popResp, h404, reqHeaders]

/-- Witness for C2 (amended): concrete merge where the base value wins on
the shared key and the caller's survives on its own key, and a concrete
`get` carrying that merged dict. -/
theorem c2_headers_merge_amended_witness :
    dictGet (dictUpdate [("X-T", "caller"), ("X-C", "c")] [("X-T", "base")]) "X-T" =
      some "base" ∧
    dictGet (dictUpdate [("X-T", "caller"), ("X-C", "c")] [("X-T", "base")]) "X-C" =
      dictGet [("X-T", "caller"), ("X-C", "c")] "X-C" ∧
    (FrappeRequest.get { plainClient with headers := some [("X-T", "base")] }
        "m" none (some [("X-T", "caller"), ("X-C", "c")])
        [{ status := 200, body := some { data := none }, cookies := [] }]).2.reqs =
      [Req.httpGet "http://x/api/method/m/" none
        (some (dictUpdate [("X-T", "caller"), ("X-C", "c")] [("X-T", "base")]))] :=
  ⟨c2_headers_merge_amended.1 _ _ _ _ rfl,
   c2_headers_merge_amended.2.1 _ _ _ rfl,
   c2_headers_merge_amended.2.2.1 _ _ _ _ _ _ _ rfl (by decide) (by decide)⟩

/-! ### C8 -/

/-- A legacy client holding pre-seeded (now stale) session material, with a
persistence callback configured. -/
def staleClient : Client :=
  { url := "http://x", usr := some "u", pwd := some "p",
    session_data := some [("sid", "old")], callback := true, headers := none,
    jar := [("sid", "old")], authHeader := none }

/-- C8 counterexample: a `get` hits a 403, the automatic re-login succeeds
(the request trace shows the login and the reissued call) and its response
carries fresh cookies `{sid: new}` — the callback receives them, but the
client's stored `session_data` still holds `{sid: old}`: `_login` never
assigns `self.session_data`, so re-login does **not** replace the stored
session state. -/
theorem c8_counterexample :
    (FrappeRequest.get staleClient "m" none none
        [{ status := 403, body := none, cookies := [] },
         { status := 200, body := none, cookies := [("sid", "new")] },
         { status := 200, body := some { data := none }, cookies := [] }]).2.reqs =
      [Req.httpGet "http://x/api/method/m/" none none,
       Req.login "http://x" (some "u") (some "p") none,
       Req.httpGet "http://x/api/method/m/" none none] ∧
    (FrappeRequest.get staleClient "m" none none
        [{ status := 403, body := none, cookies := [] },
         { status := 200, body := none, cookies := [("sid", "new")] },
         { status := 200, body := some { data := none }, cookies := [] }]).2.cbs =
      [[("sid", "new")]] ∧
    (FrappeRequest.get staleClient "m" none none
        [{ status := 403, body := none, cookies := [] },
         { status := 200, body := none, cookies := [("sid", "new")] },
         { status := 200, body := some { data := none }, cookies := [] }]).2.client.session_data =
      some [("sid", "old")] ∧
    (some [("sid", "old")] : Option Dict) ≠ some [("sid", "new")] := by
  refine ⟨rfl, rfl, rfl, by decide⟩

theorem pagLoop_client (endpoint : String) (H : Option Dict) (p : Option Nat)
    (filters fields order_by : Option String) (start : Nat) (s : St) (fuel : Nat) :
    (pagLoop endpoint H p filters fields order_by start s fuel).st.client = s.client := by
  induction fuel generalizing start s with
  | zero => rfl
  | succ n ih =>
    unfold pagLoop
    dsimp only
    split
    · exact doRequest_client _ _
    · rcases hh : handle403
        (Req.httpGet endpoint (some (pagParams start p filters fields order_by)) H)
        (doRequest (Req.httpGet endpoint
          (some (pagParams start p filters fields order_by)) H) s).1
        (doRequest (Req.httpGet endpoint
          (some (pagParams start p filters fields order_by)) H) s).2 with ⟨res, s2⟩
      have hc2 : s2.client = s.client := by
        have h := handle403_client
          (Req.httpGet endpoint (some (pagParams start p filters fields order_by)) H)
          (doRequest (Req.httpGet endpoint
            (some (pagParams start p filters fields order_by)) H) s).1
          (doRequest (Req.httpGet endpoint
            (some (pagParams start p filters fields order_by)) H) s).2
        rw [hh] at h
        rw [h, doRequest_client]
      cases res with
      | error e => exact hc2
      | ok rf =>
        dsimp only
        cases processResponse rf with
        | error e => exact hc2
        | ok page =>
          dsimp only
          split
          · exact hc2
          · cases pyLt page.items.length p with
            | error e => exact hc2
            | ok b =>
              cases b with
              | true => exact hc2
              | false => exact (ih _ s2).trans hc2

theorem get_paginated_doc_client (c : Client) (doctype : String)
    (filters fields : Option String) (lpl ls : Option Nat) (ob : Option String)
    (hdrs : Option Dict) (net : List Resp) (fuel : Nat) :
    (FrappeRequest.get_paginated_doc c doctype filters fields lpl ls ob hdrs
      net fuel).st.client = c := by
  unfold FrappeRequest.get_paginated_doc
  split
  · rfl
  · dsimp only
    rw [pagLoop_client]

theorem handle403_single_client (c : Client) (q : Req) (r : Resp) (s : St)
    (hc : s.client = c) :
    (match handle403 q r s with
     | (.error e, s2) => DocOut.single (.error e) s2
     | (.ok rf, s2) => DocOut.single (processResponse rf) s2).st.client = c := by
  rcases hh : handle403 q r s with ⟨res, s2⟩
  have h2 : s2.client = c := by
    have h := handle403_client q r s
    rw [hh] at h
    rw [h, hc]
  cases res <;> exact h2

/-- C8 (amended): the stored session state is written **only** by the
constructor: a `__init__`-time login (200) stores the login response's
cookie dict in `session_data`; but `get`, `post`, `get_paginated_doc` and
`get_doc` (single-fetch and paginated alike) never mutate the instance —
an automatic re-login on 403 on any of these paths leaves `session_data`
unchanged, handing the fresh cookie material only to the configured
callback (and to the live HTTP session, outside this code). -/
theorem c8_session_state_amended :
    (∀ (url u p : String) (cb : Bool) (hdrs : Option Dict) (r : Resp) (rest : List Resp),
      u ≠ "" → p ≠ "" → r.status = 200 →
      (initClient url (some u) (some p) none none none cb hdrs (r :: rest)).1 =
        .ok { url := url, usr := some u, pwd := some p,
              session_data := some r.cookies, callback := cb, headers := hdrs,
              jar := [], authHeader := none }) ∧
    (∀ (c : Client) (method : String) (params : Option Dict) (hdrs : Option Dict)
       (net : List Resp),
      (FrappeRequest.get c method params hdrs net).2.client = c) ∧
    (∀ (c : Client) (method : String) (d : Option Dict) (j : Option PageJson)
       (hdrs : Option Dict) (net : List Resp),
      (FrappeRequest.post c method d j hdrs net).2.client = c) ∧
    (∀ (c : Client) (doctype : String) (filters fields : Option String)
       (lpl ls : Option Nat) (ob : Option String) (hdrs : Option Dict)
       (net : List Resp) (fuel : Nat),
      (FrappeRequest.get_paginated_doc c doctype filters fields lpl ls ob hdrs
        net fuel).st.client = c) ∧
    (∀ (c : Client) (doctype name : String) (filters fields : Option String)
       (lpl ls : Option Nat) (ob : Option String) (hdrs : Option Dict)
       (pagination : Bool) (net : List Resp) (fuel : Nat),
      (FrappeRequest.get_doc c doctype name filters fields lpl ls ob hdrs
        pagination net fuel).st.client = c) := by
  refine ⟨?_, ?_, ?_, ?_, ?_⟩
  · intro url u p cb hdrs r rest hu hp h200
    have hu' : u.isEmpty = false := by
      cases h : u.isEmpty
      · rfl
      · exact absurd ((String.isEmpty_iff u).mp h) hu
    have hp' : p.isEmpty = false := by
      cases h : p.isEmpty
      · rfl
      · exact absurd ((String.isEmpty_iff p).mp h) hp
    have h403 : (r.status == 403) = false := by simp [h200]
    have hne : (r.status != 200) = false := by simp [h200]
    cases cb <;>
      simp [initClient, truthyStr, truthyDict, hu', hp', loginM, doRequest, popResp,
        h403, hne]
  · intro c method params hdrs net
    unfold FrappeRequest.get
    split
    · rfl
    · next H heq =>
      dsimp only
      rcases hh : handle403 (Req.httpGet (c.url ++ "/api/method/" ++ method ++ "/") params H)
        (doRequest (Req.httpGet (c.url ++ "/api/method/" ++ method ++ "/") params H)
          { client := c, net := net, reqs := [], cbs := [] }).1
        (doRequest (Req.httpGet (c.url ++ "/api/method/" ++ method ++ "/") params H)
          { client := c, net := net, reqs := [], cbs := [] }).2 with ⟨res, s2⟩
      have hc2 : s2.client = c := by
        have h := handle403_client
          (Req.httpGet (c.url ++ "/api/method/" ++ method ++ "/") params H)
          (doRequest (Req.httpGet (c.url ++ "/api/method/" ++ method ++ "/") params H)
            { client := c, net := net, reqs := [], cbs := [] }).1
          (doRequest (Req.httpGet (c.url ++ "/api/method/" ++ method ++ "/") params H)
            { client := c, net := net, reqs := [], cbs := [] }).2
        rw [hh] at h
        rw [h, doRequest_client]
      cases res with
      | error e => exact hc2
      | ok rf => exact hc2
  · intro c method d j hdrs net
    unfold FrappeRequest.post
    split
    · rfl
    · next H heq =>
      dsimp only
      rcases hh : handle403 (Req.httpPost (c.url ++ "/api/method/" ++ method ++ "/") d j H)
        (doRequest (Req.httpPost (c.url ++ "/api/method/" ++ method ++ "/") d j H)
          { client := c, net := net, reqs := [], cbs := [] }).1
        (doRequest (Req.httpPost (c.url ++ "/api/method/" ++ method ++ "/") d j H)
          { client := c, net := net, reqs := [], cbs := [] }).2 with ⟨res, s2⟩
      have hc2 : s2.client = c := by
        have h := handle403_client
          (Req.httpPost (c.url ++ "/api/method/" ++ method ++ "/") d j H)
          (doRequest (Req.httpPost (c.url ++ "/api/method/" ++ method ++ "/") d j H)
            { client := c, net := net, reqs := [], cbs := [] }).1
          (doRequest (Req.httpPost (c.url ++ "/api/method/" ++ method ++ "/") d j H)
            { client := c, net := net, reqs := [], cbs := [] }).2
        rw [hh] at h
        rw [h, doRequest_client]
      cases res with
      | error e => exact hc2
      | ok rf => exact hc2
  · intro c doctype filters fields lpl ls ob hdrs net fuel
    exact get_paginated_doc_client c doctype filters fields lpl ls ob hdrs net fuel
  · intro c doctype name filters fields lpl ls ob hdrs pagination net fuel
    unfold FrappeRequest.get_doc
    dsimp only
    split
    · split
      · next h => exact absurd h (by decide)
      · split
        · rfl
        · exact handle403_single_client c _ _ _ (doRequest_client _ _)
    · cases pagination with
      | false =>
        split
        · next h => exact absurd h (by decide)
        · split
          · rfl
          · exact handle403_single_client c _ _ _ (doRequest_client _ _)
      | true =>
        split
        · exact get_paginated_doc_client c doctype filters fields lpl ls ob hdrs net fuel
        · next h => exact absurd rfl h

/-- Witness for C8 (amended): a concrete construction-time login stores the
login cookies; a concrete `get` and a concrete single-fetch `get_doc`, each
recovering through a 403 re-login, leave the instance untouched. -/
theorem c8_session_state_amended_witness :
    (initClient "http://x" (some "u") (some "p") none none none false none
        [{ status := 200, body := none, cookies := [("sid", "fresh")] }]).1 =
      .ok { url := "http://x", usr := some "u", pwd := some "p",
            session_data := some [("sid", "fresh")], callback := false,
            headers := none, jar := [], authHeader := none } ∧
    (FrappeRequest.get staleClient "m" none none
        [{ status := 403, body := none, cookies := [] },
         { status := 200, body := none, cookies := [("sid", "new")] },
         { status := 200, body := some { data := none }, cookies := [] }]).2.client =
      staleClient ∧
    (FrappeRequest.get_doc staleClient "Item" "N1" none none none none none none
        false
        [{ status := 403, body := none, cookies := [] },
         { status := 200, body := none, cookies := [("sid", "new")] },
         { status := 200, body := some { data := none }, cookies := [] }]
        1).st.client = staleClient :=
  ⟨c8_session_state_amended.1 "http://x" "u" "p" false none _ _
      (by decide) (by decide) rfl,
   c8_session_state_amended.2.1 staleClient "m" none none _,
   c8_session_state_amended.2.2.2.2 staleClient "Item" "N1" none none none none
      none none false _ 1⟩

/-! ### C9 -/

/-- C9 counterexample: a pagination step whose response is a 404 with a
body that is not valid JSON does **not** fail with `GeneralError` — the 404
check precedes decoding, so the body is never parsed and the step yields
`{"data": []}` and terminates normally. -/
theorem c9_counterexample :
    (FrappeRequest.get_paginated_doc plainClient "Item" none none (some 100) none
        none none [{ status := 404, body := none, cookies := [] }] 3).status =
      PagStatus.done ∧
    (FrappeRequest.get_paginated_doc plainClient "Item" none none (some 100) none
        none none [{ status := 404, body := none, cookies := [] }] 3).pages =
      [emptyResponse] ∧
    PagStatus.done ≠
      PagStatus.raised (Err.general "Unable to process non JSON response") := by
  refine ⟨rfl, rfl, by decide⟩

/-- C9 (amended): whenever a response body that is actually decoded cannot
be parsed as JSON, the operation fails with
`GeneralException("Unable to process non JSON response")`, independent of
the status code — on `get`, `post`, the single-fetch path of `get_doc`,
and every pagination step whose response is decoded; the one exception is
a 404 response in a pagination step, which is never decoded (see the
counterexample) and yields the empty page instead. -/
theorem c9_decode_error_amended :
    (∀ r : Resp, r.body = none →
      processResponse r = .error (.general "Unable to process non JSON response")) ∧
    (∀ (c : Client) (method : String) (params : Option Dict) (hdrs H : Option Dict)
       (r : Resp) (rest : List Resp),
      mergeCallHeaders c.headers hdrs = .ok H → r.status ≠ 403 → r.body = none →
      (FrappeRequest.get c method params hdrs (r :: rest)).1 =
        .error (.general "Unable to process non JSON response")) ∧
    (∀ (c : Client) (method : String) (d : Option Dict) (j : Option PageJson)
       (hdrs H : Option Dict) (r : Resp) (rest : List Resp),
      mergeCallHeaders c.headers hdrs = .ok H → r.status ≠ 403 → r.body = none →
      (FrappeRequest.post c method d j hdrs (r :: rest)).1 =
        .error (.general "Unable to process non JSON response")) ∧
    (∀ (c : Client) (doctype name : String) (hdrs H : Option Dict)
       (r : Resp) (rest : List Resp) (fuel : Nat),
      mergeCallHeaders c.headers hdrs = .ok H → r.status ≠ 403 → r.body = none →
      FrappeRequest.get_doc c doctype name none none none none none hdrs false
          (r :: rest) fuel =
        .single (.error (.general "Unable to process non JSON response"))
          { client := c, net := rest,
            reqs := [Req.httpGet (c.url ++ "/api/resource/" ++ doctype ++ "/" ++ name)
              (some []) H],
            cbs := [] }) ∧
    (∀ (endpoint : String) (H : Option Dict) (p : Option Nat)
       (filters fields order_by : Option String) (start : Nat) (s : St) (fuel : Nat),
      (popResp s.net).1.status ≠ 404 → (popResp s.net).1.status ≠ 403 →
      (popResp s.net).1.body = none →
      (pagLoop endpoint H p filters fields order_by start s (fuel + 1)).status =
        .raised (.general "Unable to process non JSON response")) := by
  refine ⟨?_, ?_, ?_, ?_, ?_⟩
  · intro r h
    simp [processResponse, h]
  · intro c method params hdrs H r rest hH h403 hbody
    simp [FrappeRequest.get, hH, doRequest, popResp, handle403, h403,
      processResponse, hbody]
  · intro c method d j hdrs H r rest hH h403 hbody
    simp [FrappeRequest.post, hH, doRequest, popResp, handle403, h403,
      processResponse, hbody]
  · intro c doctype name hdrs H r rest fuel hH h403 hbody
    simp [FrappeRequest.get_doc, hH, doRequest, popResp, handle403, h403,
      processResponse, hbody]
  · intro endpoint H p filters fields order_by start s fuel h404 h403 hbody
    unfold pagLoop
    simp [doRequest, h404, handle403, h403, processResponse, hbody]

/-- Witness for C9 (amended): concrete non-JSON bodies on a 200 `get`, a
500 `post`, a 200 single `get_doc` and a 500 pagination step each raise the
decode error. -/
theorem c9_decode_error_amended_witness :
    processResponse { status := 200, body := none, cookies := [] } =
      .error (.general "Unable to process non JSON response") ∧
    (FrappeRequest.get plainClient "m" none none
        [{ status := 200, body := none, cookies := [] }]).1 =
      .error (.general "Unable to process non JSON response") ∧
    (FrappeRequest.post plainClient "m" none none none
        [{ status := 500, body := none, cookies := [] }]).1 =
      .error (.general "Unable to process non JSON response") ∧
    (pagLoop "http://x/api/resource/Item/" none (some 100) none none none 0
        { client := plainClient, net := [{ status := 500, body := none, cookies := [] }],
          reqs := [], cbs := [] } 1).status =
      .raised (.general "Unable to process non JSON response") :=
  ⟨c9_decode_error_amended.1 _ rfl,
   c9_decode_error_amended.2.1 plainClient "m" none none none _ _ rfl
     (by decide) rfl,
   c9_decode_error_amended.2.2.1 plainClient "m" none none none none _ _ rfl
     (by decide) rfl,
   c9_decode_error_amended.2.2.2.2 "http://x/api/resource/Item/" none (some 100)
     none none none 0 _ 0 (by decide) (by decide) rfl⟩

/-! ### C6 -/

/-- C6: evaluation at the failing input.  Entering pagination through
`get_doc(pagination=True)` with `limit_page_length` omitted passes `None`
to `get_paginated_doc`; the normalisation `100 if limit_page_length == 0
else limit_page_length` does not catch `None` (`None == 0` is false), so
the wire parameter is the string `"None"` instead of `"100"` and the
last-page comparison `len(data) < None` raises `TypeError` on the first
non-empty page — the effective page size is neither positive nor 100.
By contrast, calling `get_paginated_doc` directly with `limit_page_length=0`
is normalised to 100 as the claim states. -/
theorem c6_default_page_size_bug :
    FrappeRequest.get_doc plainClient "Item" "" none none none none none none true
        [{ status := 200, body := some { data := some [0] }, cookies := [] }] 2 =
      DocOut.paged
        { pages := [], status := .raised .typeError,
          st :=
            { client := plainClient, net := [],
              reqs := [Req.httpGet "http://x/api/resource/Item/"
                (some [("limit_start", "0"), ("limit_page_length", "None")]) none],
              cbs := [] } } ∧
    (FrappeRequest.get_paginated_doc plainClient "Item" none none (some 0) none
        none none [{ status := 200, body := some { data := some [] }, cookies := [] }]
        2).st.reqs =
      [Req.httpGet "http://x/api/resource/Item/"
        (some [("limit_start", "0"), ("limit_page_length", "100")]) none] := by
  refine ⟨rfl, rfl⟩

/-! ### C1 -/

/-- C1: the 403 retry protocol of `get` and `post`.  Under legacy (cookie)
auth, a first response of 403 triggers exactly one login request; if that
login answers 200, the identical request (same URL, same params/payload,
same merged headers) is reissued exactly once and its response — whatever
it is — is decoded, with no further retry; if the login answers 403, the
login error propagates and nothing is reissued.  Under non-legacy (static
API key) auth, a 403 triggers no login and no reissue: the 403 response is
decoded as-is. -/
theorem c1_retry_protocol :
    (∀ (c : Client) (method : String) (params : Option Dict) (hdrs H : Option Dict)
       (r1 rL r2 : Resp) (rest : List Resp),
      c.is_legacy_auth = true → mergeCallHeaders c.headers hdrs = .ok H →
      r1.status = 403 → rL.status = 200 →
      FrappeRequest.get c method params hdrs (r1 :: rL :: r2 :: rest) =
        (processResponse r2,
         { client := c, net := rest,
           reqs := [Req.httpGet (c.url ++ "/api/method/" ++ method ++ "/") params H,
                    Req.login c.url c.usr c.pwd c.headers,
                    Req.httpGet (c.url ++ "/api/method/" ++ method ++ "/") params H],
           cbs := if c.callback then [rL.cookies] else [] })) ∧
    (∀ (c : Client) (method : String) (params : Option Dict) (hdrs H : Option Dict)
       (r1 rL : Resp) (rest : List Resp),
      c.is_legacy_auth = true → mergeCallHeaders c.headers hdrs = .ok H →
      r1.status = 403 → rL.status = 403 →
      FrappeRequest.get c method params hdrs (r1 :: rL :: rest) =
        (.error (.general "Invalid Session"),
         { client := c, net := rest,
           reqs := [Req.httpGet (c.url ++ "/api/method/" ++ method ++ "/") params H,
                    Req.login c.url c.usr c.pwd c.headers],
           cbs := [] })) ∧
    (∀ (c : Client) (method : String) (params : Option Dict) (hdrs H : Option Dict)
       (r1 : Resp) (rest : List Resp),
      c.is_legacy_auth = false → mergeCallHeaders c.headers hdrs = .ok H →
      r1.status = 403 →
      FrappeRequest.get c method params hdrs (r1 :: rest) =
        (processResponse r1,
         { client := c, net := rest,
           reqs := [Req.httpGet (c.url ++ "/api/method/" ++ method ++ "/") params H],
           cbs := [] })) ∧
    (∀ (c : Client) (method : String) (d : Option Dict) (j : Option PageJson)
       (hdrs H : Option Dict) (r1 rL r2 : Resp) (rest : List Resp),
      c.is_legacy_auth = true → mergeCallHeaders c.headers hdrs = .ok H →
      r1.status = 403 → rL.status = 200 →
      FrappeRequest.post c method d j hdrs (r1 :: rL :: r2 :: rest) =
        (processResponse r2,
         { client := c, net := rest,
           reqs := [Req.httpPost (c.url ++ "/api/method/" ++ method ++ "/") d j H,
                    Req.login c.url c.usr c.pwd c.headers,
                    Req.httpPost (c.url ++ "/api/method/" ++ method ++ "/") d j H],
           cbs := if c.callback then [rL.cookies] else [] })) ∧
    (∀ (c : Client) (method : String) (d : Option Dict) (j : Option PageJson)
       (hdrs H : Option Dict) (r1 rL : Resp) (rest : List Resp),
      c.is_legacy_auth = true → mergeCallHeaders c.headers hdrs = .ok H →
      r1.status = 403 → rL.status = 403 →
      FrappeRequest.post c method d j hdrs (r1 :: rL :: rest) =
        (.error (.general "Invalid Session"),
         { client := c, net := rest,
           reqs := [Req.httpPost (c.url ++ "/api/method/" ++ method ++ "/") d j H,
                    Req.login c.url c.usr c.pwd c.headers],
           cbs := [] })) ∧
    (∀ (c : Client) (method : String) (d : Option Dict) (j : Option PageJson)
       (hdrs H : Option Dict) (r1 : Resp) (rest : List Resp),
      c.is_legacy_auth = false → mergeCallHeaders c.headers hdrs = .ok H →
      r1.status = 403 →
      FrappeRequest.post c method d j hdrs (r1 :: rest) =
        (processResponse r1,
         { client := c, net := rest,
           reqs := [Req.httpPost (c.url ++ "/api/method/" ++ method ++ "/") d j H],
           cbs := [] })) := by
  refine ⟨?_, ?_, ?_, ?_, ?_, ?_⟩
  · intro c method params hdrs H r1 rL r2 rest hleg hH h403 h200
    cases hcb : c.callback <;>
      simp [FrappeRequest.get, hH, doRequest, popResp, handle403, loginM,
        hleg, h403, h200, hcb]
  · intro c method params hdrs H r1 rL rest hleg hH h403 hL
    simp [FrappeRequest.get, hH, doRequest, popResp, handle403, loginM,
      hleg, h403, hL]
  · intro c method params hdrs H r1 rest hleg hH h403
    simp [FrappeRequest.get, hH, doRequest, popResp, handle403, hleg]
  · intro c method d j hdrs H r1 rL r2 rest hleg hH h403 h200
    cases hcb : c.callback <;>
      simp [FrappeRequest.post, hH, doRequest, popResp, handle403, loginM,
        hleg, h403, h200, hcb]
  · intro c method d j hdrs H r1 rL rest hleg hH h403 hL
    simp [FrappeRequest.post, hH, doRequest, popResp, handle403, loginM,
      hleg, h403, hL]
  · intro c method d j hdrs H r1 rest hleg hH h403
    simp [FrappeRequest.post, hH, doRequest, popResp, handle403, hleg]

/-- Witness for C1: concrete runs of every conjunct — a legacy `get` and
`post` that recover through one re-login, ones whose re-login is rejected,
and a keyless/API-style client whose 403 is decoded without any retry. -/
theorem c1_retry_protocol_witness :
    FrappeRequest.get legacyClient "m" none none
        [{ status := 403, body := none, cookies := [] },
         { status := 200, body := none, cookies := [] },
         { status := 200, body := some { data := none }, cookies := [] }] =
      (processResponse { status := 200, body := some { data := none }, cookies := [] },
       { client := legacyClient, net := [],
         reqs := [Req.httpGet "http://x/api/method/m/" none none,
                  Req.login "http://x" (some "u") (some "p") none,
                  Req.httpGet "http://x/api/method/m/" none none],
         cbs := if legacyClient.callback then
           [({ status := 200, body := none, cookies := [] } : Resp).cookies] else [] }) ∧
    FrappeRequest.get legacyClient "m" none none
        [{ status := 403, body := none, cookies := [] },
         { status := 403, body := none, cookies := [] }] =
      (.error (.general "Invalid Session"),
       { client := legacyClient, net := [],
         reqs := [Req.httpGet "http://x/api/method/m/" none none,
                  Req.login "http://x" (some "u") (some "p") none],
         cbs := [] }) ∧
    FrappeRequest.get plainClient "m" none none
        [{ status := 403, body := none, cookies := [] }] =
      (processResponse { status := 403, body := none, cookies := [] },
       { client := plainClient, net := [],
         reqs := [Req.httpGet "http://x/api/method/m/" none none],
         cbs := [] }) ∧
    FrappeRequest.post legacyClient "m" none none none
        [{ status := 403, body := none, cookies := [] },
         { status := 200, body := none, cookies := [] },
         { status := 200, body := some { data := none }, cookies := [] }] =
      (processResponse { status := 200, body := some { data := none }, cookies := [] },
       { client := legacyClient, net := [],
         reqs := [Req.httpPost "http://x/api/method/m/" none none none,
                  Req.login "http://x" (some "u") (some "p") none,
                  Req.httpPost "http://x/api/method/m/" none none none],
         cbs := if legacyClient.callback then
           [({ status := 200, body := none, cookies := [] } : Resp).cookies] else [] }) ∧
    FrappeRequest.post legacyClient "m" none none none
        [{ status := 403, body := none, cookies := [] },
         { status := 403, body := none, cookies := [] }] =
      (.error (.general "Invalid Session"),
       { client := legacyClient, net := [],
         reqs := [Req.httpPost "http://x/api/method/m/" none none none,
                  Req.login "http://x" (some "u") (some "p") none],
         cbs := [] }) ∧
    FrappeRequest.post plainClient "m" none none none
        [{ status := 403, body := none, cookies := [] }] =
      (processResponse { status := 403, body := none, cookies := [] },
       { client := plainClient, net := [],
         reqs := [Req.httpPost "http://x/api/method/m/" none none none],
         cbs := [] }) :=
  ⟨c1_retry_protocol.1 legacyClient "m" none none none _ _ _ _ (by decide) rfl rfl rfl,
   c1_retry_protocol.2.1 legacyClient "m" none none none _ _ _ (by decide) rfl rfl rfl,
   c1_retry_protocol.2.2.1 plainClient "m" none none none _ _ (by decide) rfl rfl,
   c1_retry_protocol.2.2.2.1 legacyClient "m" none none none none _ _ _ _
     (by decide) rfl rfl rfl,
   c1_retry_protocol.2.2.2.2.1 legacyClient "m" none none none none _ _ _
     (by decide) rfl rfl rfl,
   c1_retry_protocol.2.2.2.2.2 plainClient "m" none none none none _ _
     (by decide) rfl rfl⟩

/-! Step lemmas for one iteration of the pagination loop. -/

theorem pagLoop_step_404 (endpoint : String) (H : Option Dict) (p : Option Nat)
    (filters fields order_by : Option String) (start : Nat) (s : St) (fuel : Nat)
    (h : (popResp s.net).1.status = 404) :
    pagLoop endpoint H p filters fields order_by start s (fuel + 1) =
      { pages := [emptyResponse], status := .done,
        st := { client := s.client, net := (popResp s.net).2,
                reqs := s.reqs ++ [Req.httpGet endpoint
                  (some (pagParams start p filters fields order_by)) H],
                cbs := s.cbs } } := by
  unfold pagLoop
  simp [doRequest, h]

theorem pagLoop_step_empty (endpoint : String) (H : Option Dict) (p : Option Nat)
    (filters fields order_by : Option String) (start : Nat) (s : St) (fuel : Nat)
    (page : PageJson)
    (h404 : (popResp s.net).1.status ≠ 404) (h403 : (popResp s.net).1.status ≠ 403)
    (hbody : (popResp s.net).1.body = some page) (hlen : page.items.length = 0) :
    pagLoop endpoint H p filters fields order_by start s (fuel + 1) =
      { pages := [emptyResponse], status := .done,
        st := { client := s.client, net := (popResp s.net).2,
                reqs := s.reqs ++ [Req.httpGet endpoint
                  (some (pagParams start p filters fields order_by)) H],
                cbs := s.cbs } } := by
  unfold pagLoop
  simp [doRequest, h404, handle403, h403, processResponse, hbody, hlen]

theorem pagLoop_step_last (endpoint : String) (H : Option Dict) (pl : Nat)
    (filters fields order_by : Option String) (start : Nat) (s : St) (fuel : Nat)
    (page : PageJson)
    (h404 : (popResp s.net).1.status ≠ 404) (h403 : (popResp s.net).1.status ≠ 403)
    (hbody : (popResp s.net).1.body = some page)
    (hne : page.items.length ≠ 0) (hlt : page.items.length < pl) :
    pagLoop endpoint H (some pl) filters fields order_by start s (fuel + 1) =
      { pages := [page], status := .done,
        st := { client := s.client, net := (popResp s.net).2,
                reqs := s.reqs ++ [Req.httpGet endpoint
                  (some (pagParams start (some pl) filters fields order_by)) H],
                cbs := s.cbs } } := by
  unfold pagLoop
  simp [doRequest, h404, handle403, h403, processResponse, hbody, hne, pyLt, hlt]

theorem pagLoop_step_cont (endpoint : String) (H : Option Dict) (pl : Nat)
    (filters fields order_by : Option String) (start : Nat) (s : St) (fuel : Nat)
    (page : PageJson)
    (h404 : (popResp s.net).1.status ≠ 404) (h403 : (popResp s.net).1.status ≠ 403)
    (hbody : (popResp s.net).1.body = some page)
    (hne : page.items.length ≠ 0) (hge : ¬ page.items.length < pl) :
    pagLoop endpoint H (some pl) filters fields order_by start s (fuel + 1) =
      { pages := page :: (pagLoop endpoint H (some pl) filters fields order_by
          (start + pl)
          { client := s.client, net := (popResp s.net).2,
            reqs := s.reqs ++ [Req.httpGet endpoint
              (some (pagParams start (some pl) filters fields order_by)) H],
            cbs := s.cbs } fuel).pages,
        status := (pagLoop endpoint H (some pl) filters fields order_by
          (start + pl)
          { client := s.client, net := (popResp s.net).2,
            reqs := s.reqs ++ [Req.httpGet endpoint
              (some (pagParams start (some pl) filters fields order_by)) H],
            cbs := s.cbs } fuel).status,
        st := (pagLoop endpoint H (some pl) filters fields order_by
          (start + pl)
          { client := s.client, net := (popResp s.net).2,
            reqs := s.reqs ++ [Req.httpGet endpoint
              (some (pagParams start (some pl) filters fields order_by)) H],
            cbs := s.cbs } fuel).st } := by
  generalize hrec : pagLoop endpoint H (some pl) filters fields order_by (start + pl)
    { client := s.client, net := (popResp s.net).2,
      reqs := s.reqs ++ [Req.httpGet endpoint
        (some (pagParams start (some pl) filters fields order_by)) H],
      cbs := s.cbs } fuel = out
  unfold pagLoop
  simp [doRequest, h404, handle403, h403, processResponse, hbody, hne, pyLt, hge, hrec]

theorem pagLoop_serverNet_done (L : List Nat) (pl : Nat) (hpl : 0 < pl) :
    ∀ (fuel start : Nat) (endpoint : String) (H : Option Dict)
      (filters fields order_by : Option String) (s : St),
      s.net = serverNet L pl start (fuel + 1) → L.length ≤ start + fuel →
      (pagLoop endpoint H (some pl) filters fields order_by start s
        (fuel + 1)).status = .done := by
  intro fuel
  induction fuel with
  | zero =>
    intro start endpoint H filters fields order_by s hnet hlen
    have hpop1 : (popResp s.net).1 = serverPage L start pl := by
      rw [hnet]; rfl
    have hdrop : L.drop start = [] := List.drop_eq_nil_of_le (by omega)
    have hbody : (popResp s.net).1.body =
        some { data := some ((L.drop start).take pl) } := by rw [hpop1]; rfl
    have hlen0 : (PageJson.mk (some ((L.drop start).take pl))).items.length = 0 := by
      simp [PageJson.items, hdrop]
    rw [pagLoop_step_empty endpoint H (some pl) filters fields order_by start s 0
      _ (by rw [hpop1]; simp [serverPage]) (by rw [hpop1]; simp [serverPage]) hbody hlen0]
  | succ n ih =>
    intro start endpoint H filters fields order_by s hnet hlen
    have hpop1 : (popResp s.net).1 = serverPage L start pl := by
      rw [hnet]; rfl
    have hpop2 : (popResp s.net).2 = serverNet L pl (start + pl) (n + 1) := by
      rw [hnet]; rfl
    have hbody : (popResp s.net).1.body =
        some { data := some ((L.drop start).take pl) } := by rw [hpop1]; rfl
    have hitems : (PageJson.mk (some ((L.drop start).take pl))).items =
        (L.drop start).take pl := rfl
    have hlentake : ((L.drop start).take pl).length = min pl (L.length - start) := by
      simp [List.length_take, List.length_drop]
    by_cases h0 : ((L.drop start).take pl).length = 0
    · rw [pagLoop_step_empty endpoint H (some pl) filters fields order_by start s
        (n + 1) _ (by rw [hpop1]; simp [serverPage]) (by rw [hpop1]; simp [serverPage]) hbody
        (by rw [hitems]; exact h0)]
    · by_cases hlt : ((L.drop start).take pl).length < pl
      · rw [pagLoop_step_last endpoint H pl filters fields order_by start s
          (n + 1) _ (by rw [hpop1]; simp [serverPage]) (by rw [hpop1]; simp [serverPage]) hbody
          (by rw [hitems]; exact h0) (by rw [hitems]; exact hlt)]
      · rw [pagLoop_step_cont endpoint H pl filters fields order_by start s
          (n + 1) _ (by rw [hpop1]; simp [serverPage]) (by rw [hpop1]; simp [serverPage]) hbody
          (by rw [hitems]; exact h0) (by rw [hitems]; exact hlt)]
        exact ih (start + pl) endpoint H filters fields order_by _
          (by rw [hpop2]) (by omega)

/-! ### C4 -/

/-- C4: the pagination stop rules.  Each fetch iteration behaves exactly
as specified: a 404 response yields one final `{"data": []}` page and
stops; a decoded page with zero items yields the empty page and stops; a
decoded page with fewer items than the page size yields that page and
stops; a page with at least `pageSize` items is yielded and iteration
continues at the next offset.  Moreover, against a well-behaved server
over any finite collection, the loop terminates normally within
`length + 1` iterations. -/
theorem c4_pagination_stop_rules :
    (∀ (endpoint : String) (H : Option Dict) (p : Option Nat)
       (filters fields order_by : Option String) (start : Nat) (s : St) (fuel : Nat),
      (popResp s.net).1.status = 404 →
      pagLoop endpoint H p filters fields order_by start s (fuel + 1) =
        { pages := [emptyResponse], status := .done,
          st := { client := s.client, net := (popResp s.net).2,
                  reqs := s.reqs ++ [Req.httpGet endpoint
                    (some (pagParams start p filters fields order_by)) H],
                  cbs := s.cbs } }) ∧
    (∀ (endpoint : String) (H : Option Dict) (p : Option Nat)
       (filters fields order_by : Option String) (start : Nat) (s : St) (fuel : Nat)
       (page : PageJson),
      (popResp s.net).1.status ≠ 404 → (popResp s.net).1.status ≠ 403 →
      (popResp s.net).1.body = some page → page.items.length = 0 →
      pagLoop endpoint H p filters fields order_by start s (fuel + 1) =
        { pages := [emptyResponse], status := .done,
          st := { client := s.client, net := (popResp s.net).2,
                  reqs := s.reqs ++ [Req.httpGet endpoint
                    (some (pagParams start p filters fields order_by)) H],
                  cbs := s.cbs } }) ∧
    (∀ (endpoint : String) (H : Option Dict) (pl : Nat)
       (filters fields order_by : Option String) (start : Nat) (s : St) (fuel : Nat)
       (page : PageJson),
      (popResp s.net).1.status ≠ 404 → (popResp s.net).1.status ≠ 403 →
      (popResp s.net).1.body = some page →
      page.items.length ≠ 0 → page.items.length < pl →
      pagLoop endpoint H (some pl) filters fields order_by start s (fuel + 1) =
        { pages := [page], status := .done,
          st := { client := s.client, net := (popResp s.net).2,
                  reqs := s.reqs ++ [Req.httpGet endpoint
                    (some (pagParams start (some pl) filters fields order_by)) H],
                  cbs := s.cbs } }) ∧
    (∀ (endpoint : String) (H : Option Dict) (pl : Nat)
       (filters fields order_by : Option String) (start : Nat) (s : St) (fuel : Nat)
       (page : PageJson),
      (popResp s.net).1.status ≠ 404 → (popResp s.net).1.status ≠ 403 →
      (popResp s.net).1.body = some page →
      page.items.length ≠ 0 → pl ≤ page.items.length →
      pagLoop endpoint H (some pl) filters fields order_by start s (fuel + 1) =
        { pages := page :: (pagLoop endpoint H (some pl) filters fields order_by
            (start + pl)
            { client := s.client, net := (popResp s.net).2,
              reqs := s.reqs ++ [Req.httpGet endpoint
                (some (pagParams start (some pl) filters fields order_by)) H],
              cbs := s.cbs } fuel).pages,
          status := (pagLoop endpoint H (some pl) filters fields order_by
            (start + pl)
            { client := s.client, net := (popResp s.net).2,
              reqs := s.reqs ++ [Req.httpGet endpoint
                (some (pagParams start (some pl) filters fields order_by)) H],
              cbs := s.cbs } fuel).status,
          st := (pagLoop endpoint H (some pl) filters fields order_by
            (start + pl)
            { client := s.client, net := (popResp s.net).2,
              reqs := s.reqs ++ [Req.httpGet endpoint
                (some (pagParams start (some pl) filters fields order_by)) H],
              cbs := s.cbs } fuel).st }) ∧
    (∀ (L : List Nat) (pl : Nat) (endpoint : String) (H : Option Dict)
       (filters fields order_by : Option String) (start : Nat) (s : St),
      0 < pl → s.net = serverNet L pl start (L.length + 1) →
      (pagLoop endpoint H (some pl) filters fields order_by start s
        (L.length + 1)).status = .done) := by
  refine ⟨?_, ?_, ?_, ?_, ?_⟩
  · intro endpoint H p filters fields order_by start s fuel h
    exact pagLoop_step_404 endpoint H p filters fields order_by start s fuel h
  · intro endpoint H p filters fields order_by start s fuel page h404 h403 hbody hlen
    exact pagLoop_step_empty endpoint H p filters fields order_by start s fuel page
      h404 h403 hbody hlen
  · intro endpoint H pl filters fields order_by start s fuel page h404 h403 hbody hne hlt
    exact pagLoop_step_last endpoint H pl filters fields order_by start s fuel page
      h404 h403 hbody hne hlt
  · intro endpoint H pl filters fields order_by start s fuel page h404 h403 hbody hne hge
    exact pagLoop_step_cont endpoint H pl filters fields order_by start s fuel page
      h404 h403 hbody hne (Nat.not_lt.mpr hge)
  · intro L pl endpoint H filters fields order_by start s hpl hnet
    exact pagLoop_serverNet_done L pl hpl L.length start endpoint H
      filters fields order_by s hnet (Nat.le_add_left _ _)

/-- Witness for C4: concrete one-iteration runs exercising each stop rule
(404, zero items, short page, full page), and a concrete 5-record server
walked to normal termination. -/
theorem c4_pagination_stop_rules_witness :
    pagLoop "e" none (some 100) none none none 0
        { client := plainClient, net := [{ status := 404, body := none, cookies := [] }],
          reqs := [], cbs := [] } 1 =
      { pages := [emptyResponse], status := .done,
        st := { client := plainClient, net := [],
                reqs := [Req.httpGet "e" (some (pagParams 0 (some 100) none none none)) none],
                cbs := [] } } ∧
    pagLoop "e" none (some 100) none none none 0
        { client := plainClient,
          net := [{ status := 200, body := some { data := some [] }, cookies := [] }],
          reqs := [], cbs := [] } 1 =
      { pages := [emptyResponse], status := .done,
        st := { client := plainClient, net := [],
                reqs := [Req.httpGet "e" (some (pagParams 0 (some 100) none none none)) none],
                cbs := [] } } ∧
    pagLoop "e" none (some 100) none none none 0
        { client := plainClient,
          net := [{ status := 200, body := some { data := some [7] }, cookies := [] }],
          reqs := [], cbs := [] } 1 =
      { pages := [{ data := some [7] }], status := .done,
        st := { client := plainClient, net := [],
                reqs := [Req.httpGet "e" (some (pagParams 0 (some 100) none none none)) none],
                cbs := [] } } ∧
    pagLoop "e" none (some 2) none none none 0
        { client := plainClient,
          net := [{ status := 200, body := some { data := some [7, 8] }, cookies := [] }],
          reqs := [], cbs := [] } 1 =
      { pages := ({ data := some [7, 8] } : PageJson) ::
          (pagLoop "e" none (some 2) none none none 2
            { client := plainClient, net := [],
              reqs := [Req.httpGet "e" (some (pagParams 0 (some 2) none none none)) none],
              cbs := [] } 0).pages,
        status := (pagLoop "e" none (some 2) none none none 2
            { client := plainClient, net := [],
              reqs := [Req.httpGet "e" (some (pagParams 0 (some 2) none none none)) none],
              cbs := [] } 0).status,
        st := (pagLoop "e" none (some 2) none none none 2
            { client := plainClient, net := [],
              reqs := [Req.httpGet "e" (some (pagParams 0 (some 2) none none none)) none],
              cbs := [] } 0).st } ∧
    (pagLoop "e" none (some 2) none none none 0
        { client := plainClient, net := serverNet [0, 1, 2, 3, 4] 2 0 6,
          reqs := [], cbs := [] } 6).status = .done :=
  ⟨c4_pagination_stop_rules.1 "e" none (some 100) none none none 0 _ 0 rfl,
   c4_pagination_stop_rules.2.1 "e" none (some 100) none none none 0 _ 0 _
     (by decide) (by decide) rfl rfl,
   c4_pagination_stop_rules.2.2.1 "e" none 100 none none none 0 _ 0 _
     (by decide) (by decide) rfl (by decide) (by decide),
   c4_pagination_stop_rules.2.2.2.1 "e" none 2 none none none 0 _ 0 _
     (by decide) (by decide) rfl (by decide) (by decide),
   c4_pagination_stop_rules.2.2.2.2 [0, 1, 2, 3, 4] 2 "e" none none none none 0 _
     (by decide) rfl⟩

/-! ### C5 -/

/-- The `limit_start` query parameter a listing request carries. -/
def reqLimitStart : Req → Option String
  | .httpGet _ (some ps) _ => dictGet ps "limit_start"
  | _ => none

/-- C5: every pagination request sends `limit_start` equal to the current
offset, and a non-terminal (full) page advances the offset by exactly the
page size for the next iteration; concretely, with `pageSize = 100` over a
250-record collection the fetch issues requests at offsets 0, 100, 200,
produces pages of sizes [100, 100, 50], and stops. -/
theorem c5_pagination_offsets :
    (∀ (start : Nat) (p : Option Nat) (filters fields order_by : Option String),
      dictGet (pagParams start p filters fields order_by) "limit_start" =
        some (toString start)) ∧
    (∀ (endpoint : String) (H : Option Dict) (pl : Nat)
       (filters fields order_by : Option String) (start : Nat) (s : St) (fuel : Nat)
       (page : PageJson),
      (popResp s.net).1.status ≠ 404 → (popResp s.net).1.status ≠ 403 →
      (popResp s.net).1.body = some page →
      page.items.length ≠ 0 → pl ≤ page.items.length →
      (pagLoop endpoint H (some pl) filters fields order_by start s (fuel + 1)).pages =
        page :: (pagLoop endpoint H (some pl) filters fields order_by
          (start + pl)
          { client := s.client, net := (popResp s.net).2,
            reqs := s.reqs ++ [Req.httpGet endpoint
              (some (pagParams start (some pl) filters fields order_by)) H],
            cbs := s.cbs } fuel).pages) ∧
    ((FrappeRequest.get_paginated_doc plainClient "Item" none none (some 100) none
        none none (serverNet (List.range 250) 100 0 4) 4).pages.map
      (fun pg => pg.items.length) = [100, 100, 50] ∧
     (FrappeRequest.get_paginated_doc plainClient "Item" none none (some 100) none
        none none (serverNet (List.range 250) 100 0 4) 4).status = .done ∧
     (FrappeRequest.get_paginated_doc plainClient "Item" none none (some 100) none
        none none (serverNet (List.range 250) 100 0 4) 4).st.reqs.map reqLimitStart =
       [some "0", some "100", some "200"]) := by
  refine ⟨?_, ?_, ?_, ?_, ?_⟩
  · intro start p filters fields order_by
    rfl
  · intro endpoint H pl filters fields order_by start s fuel page h404 h403 hbody hne hge
    rw [pagLoop_step_cont endpoint H pl filters fields order_by start s fuel page
      h404 h403 hbody hne (Nat.not_lt.mpr hge)]
  · rfl
  · rfl
  · rfl

/-- Witness for C5: the offset parameter at a concrete offset, and a
concrete full-page iteration that recurses at offset advanced by the page
size. -/
theorem c5_pagination_offsets_witness :
    dictGet (pagParams 7 (some 100) none none none) "limit_start" = some "7" ∧
    (pagLoop "e" none (some 2) none none none 0
        { client := plainClient,
          net := [{ status := 200, body := some { data := some [7, 8] }, cookies := [] }],
          reqs := [], cbs := [] } 1).pages =
      ({ data := some [7, 8] } : PageJson) ::
        (pagLoop "e" none (some 2) none none none 2
          { client := plainClient, net := [],
            reqs := [Req.httpGet "e" (some (pagParams 0 (some 2) none none none)) none],
            cbs := [] } 0).pages :=
  ⟨c5_pagination_offsets.1 7 (some 100) none none none,
   c5_pagination_offsets.2.1 "e" none 2 none none none 0 _ 0 _
     (by decide) (by decide) rfl (by decide) (by decide)⟩

end Frappe
